import Mathlib

/-!
Shallow embedding of the Procur GPO frontend (TypeScript) for verification of
its specification. Definitions are transliterated from:
  - src/procur-frontend/src/types/index.ts        (data model)
  - src/procur-frontend/src/services/api.ts       (ApiService, interceptors)
  - src/procur-frontend/src/contexts/AuthContext.tsx (authReducer)
  - src/unnamed/part_000 (CreateGroupPage: validateForm, handleSubmit, tags, privacy form)
The backend Group Aggregate (capacity enforcement) is not part of the sources;
it is modelled from the specification where a claim needs it.
-/

namespace Procur

/-- User interface from types/index.ts lines 2-17. Optional TypeScript fields
become Option. -/
structure User where
  uid : String
  email : String
  display_name : String
  photo_url : Option String
  phone_number : Option String
  company_name : Option String
  job_title : Option String
  industry : Option String
  location : Option String
  bio : Option String
  created_at : String
  updated_at : String
  is_verified : Bool
  is_active : Bool
deriving DecidableEq

/-- Privacy union type of Group.privacy in types/index.ts line 43:
the TypeScript literals are "public", "private", "invite_only". The literal
"private" is a Lean keyword, so its constructor is named priv; privacyString
recovers the source literal. -/
inductive Privacy where
  | public
  | priv
  | invite_only
deriving DecidableEq

/-- String literal of each Privacy value as written in the TypeScript union. -/
def privacyString : Privacy → String
  | .public => "public"
  | .priv => "private"
  | .invite_only => "invite_only"

/-- Group interface from types/index.ts lines 37-54. Numbers become Int. -/
structure Group where
  id : String
  name : String
  description : String
  category : String
  industry : String
  privacy : Privacy
  max_members : Int
  current_members : Int
  created_by : String
  created_at : String
  updated_at : String
  is_active : Bool
  tags : List String
  location : Option String
  website : Option String
  contact_email : Option String
deriving DecidableEq

/-- CreateGroupRequest interface from types/index.ts lines 67-78. -/
structure CreateGroupRequest where
  name : String
  description : String
  category : String
  industry : String
  privacy : Privacy
  max_members : Int
  tags : List String
  location : Option String
  website : Option String
  contact_email : Option String
deriving DecidableEq

/-- Status union of Invitation.status in types/index.ts line 88:
"pending" | "accepted" | "declined" | "expired". -/
inductive InvitationStatus where
  | pending
  | accepted
  | declined
  | expired
deriving DecidableEq

/-- String literal of each InvitationStatus value as written in the source. -/
def invitationStatusString : InvitationStatus → String
  | .pending => "pending"
  | .accepted => "accepted"
  | .declined => "declined"
  | .expired => "expired"

/-- Role union of Invitation.role in types/index.ts line 89: "admin" | "member". -/
inductive InvitationRole where
  | admin
  | member
deriving DecidableEq

/-- Invitation interface from types/index.ts lines 81-93. -/
structure Invitation where
  id : String
  group_id : String
  group_name : String
  invited_by : String
  invited_by_name : String
  invited_email : String
  status : InvitationStatus
  role : InvitationRole
  created_at : String
  expires_at : String
  message : Option String
deriving DecidableEq

/-- Declared field names of the Invitation interface, in source order
(types/index.ts lines 81-93). -/
def invitationFieldNames : List String :=
  ["id", "group_id", "group_name", "invited_by", "invited_by_name",
   "invited_email", "status", "role", "created_at", "expires_at", "message"]

/-- CreateInvitationRequest interface from types/index.ts lines 95-100. -/
structure CreateInvitationRequest where
  group_id : String
  email : String
  role : InvitationRole
  message : Option String
deriving DecidableEq

/-- Declared field names of the CreateInvitationRequest interface
(types/index.ts lines 95-100). -/
def createInvitationRequestFieldNames : List String :=
  ["group_id", "email", "role", "message"]

/-- Field names of CreateInvitationRequest that are required (not marked with
a question mark) in types/index.ts lines 95-100. -/
def createInvitationRequestRequiredFields : List String :=
  ["group_id", "email", "role"]

/-- HTTP methods used by the ApiService in api.ts. -/
inductive HttpMethod where
  | get
  | post
  | put
  | delete
deriving DecidableEq

/-- Browser localStorage keys touched by api.ts and AuthContext.tsx; a stored
value is a string, an absent key is none. -/
structure LocalStorage where
  auth_token : Option String
  user : Option String
  refresh_token : Option String
deriving DecidableEq

/-- Axios request config as far as the request interceptor touches it:
the Authorization header, absent unless set. -/
structure RequestConfig where
  authorization : Option String
deriving DecidableEq

/-- Request interceptor of the ApiService constructor (api.ts lines 31-42):
reads auth_token from localStorage; the JavaScript condition if (token) is
false for both null (absent key) and the empty string, and otherwise sets
the Authorization header to Bearer plus the token. -/
def requestInterceptor (store : LocalStorage) (cfg : RequestConfig) : RequestConfig :=
  match store.auth_token with
  | some token =>
      if token = "" then cfg
      else { cfg with authorization := some ("Bearer " ++ token) }
  | none => cfg

/-- Response error interceptor of the ApiService constructor (api.ts lines
45-55): status is the optional error.response?.status; on 401 it removes
auth_token and user from localStorage and redirects to /login. The result is
the updated storage and the optional redirect target assigned to
window.location.href. -/
def responseErrorInterceptor (status : Option Nat) (store : LocalStorage) :
    LocalStorage × Option String :=
  if status = some 401 then
    ({ store with auth_token := none, user := none }, some "/login")
  else
    (store, none)

/-- Response success interceptor (api.ts line 46): the identity, touching
neither localStorage nor the location. -/
def responseSuccessInterceptor (store : LocalStorage) :
    LocalStorage × Option String :=
  (store, none)

/-- Request issued by ApiService.acceptInvitation (api.ts lines 163-165). -/
def acceptInvitationRequest (invitationId : String) : HttpMethod × String :=
  (HttpMethod.post, "/invitations/" ++ invitationId ++ "/accept")

/-- Request issued by ApiService.declineInvitation (api.ts lines 167-169). -/
def declineInvitationRequest (invitationId : String) : HttpMethod × String :=
  (HttpMethod.post, "/invitations/" ++ invitationId ++ "/decline")

/-- Request issued by ApiService.cancelInvitation (api.ts lines 171-173). -/
def cancelInvitationRequest (invitationId : String) : HttpMethod × String :=
  (HttpMethod.delete, "/invitations/" ++ invitationId)

/-- Request issued by ApiService.createInvitation (api.ts lines 158-161). -/
def createInvitationCall : HttpMethod × String :=
  (HttpMethod.post, "/invitations")

/-- Values of the three MenuItem entries of the privacy Select in
CreateGroupPage (part_000 lines 324-326). -/
def privacyMenuValues : List String :=
  ["public", "private", "invite_only"]

/-- Initial formData state of CreateGroupPage (part_000 lines 40-49). -/
def initialFormData : CreateGroupRequest :=
  { name := ""
    description := ""
    category := ""
    industry := ""
    privacy := Privacy.public
    max_members := 50
    tags := []
    location := some ""
    website := none
    contact_email := none }

/-- addTag of CreateGroupPage (part_000 lines 97-105): appends the trimmed
new tag when it is truthy (non-empty) and not already included; otherwise the
tag list is unchanged. -/
def addTag (tags : List String) (newTag : String) : List String :=
  if newTag.trim ≠ "" ∧ newTag.trim ∉ tags then tags ++ [newTag.trim]
  else tags

/-- removeTag of CreateGroupPage (part_000 lines 107-112): filters out every
element strictly equal to the given tag. -/
def removeTag (tags : List String) (tag : String) : List String :=
  tags.filter (fun t => t ≠ tag)

/-- One user interaction with the tag editor of CreateGroupPage. -/
inductive TagOp where
  | add (raw : String)
  | remove (tag : String)

/-- Effect of one tag interaction on the formData.tags state. -/
def applyTagOp (tags : List String) : TagOp → List String
  | .add raw => addTag tags raw
  | .remove tag => removeTag tags tag

/-- Effect of a sequence of tag interactions, applied left to right. -/
def applyTagOps (tags : List String) (ops : List TagOp) : List String :=
  ops.foldl applyTagOp tags

/-- validateForm of CreateGroupPage (part_000 lines 114-143), as the newErrors
record it builds: each entry is a key and its message, in source order. A
falsy string in the JavaScript conditions is exactly the empty string. -/
def validateFormErrors (f : CreateGroupRequest) : List (String × String) :=
  (if f.name.trim = "" then [("name", "Group name is required")]
   else if f.name.length < 3 then
     [("name", "Group name must be at least 3 characters")]
   else [])
  ++ (if f.description.trim = "" then [("description", "Description is required")]
      else if f.description.length < 10 then
        [("description", "Description must be at least 10 characters")]
      else [])
  ++ (if f.category = "" then [("category", "Category is required")] else [])
  ++ (if f.industry = "" then [("industry", "Industry is required")] else [])
  ++ (if f.max_members < 2 ∨ f.max_members > 1000 then
        [("max_members", "Maximum members must be between 2 and 1000")]
      else [])

/-- validateForm returns whether the newErrors record has no keys
(part_000 line 142). -/
def validateForm (f : CreateGroupRequest) : Bool :=
  (validateFormErrors f).isEmpty

/-- handleSubmit of CreateGroupPage (part_000 lines 145-163): returns early
with no API call when validateForm fails, otherwise issues
apiService.createGroup(formData), a POST to /groups (api.ts lines 112-115). -/
def handleSubmit (f : CreateGroupRequest) :
    Option (HttpMethod × String × CreateGroupRequest) :=
  if validateForm f then some (HttpMethod.post, "/groups", f)
  else none

/-- AuthState of AuthContext.tsx lines 5-10. -/
structure AuthState where
  user : Option User
  isAuthenticated : Bool
  isLoading : Bool
  error : Option String
deriving DecidableEq

/-- AuthAction union of AuthContext.tsx lines 12-17. -/
inductive AuthAction where
  | auth_start
  | auth_success (payload : User)
  | auth_failure (payload : String)
  | auth_logout
  | clear_error
deriving DecidableEq

/-- initialState of AuthContext.tsx lines 19-24. -/
def initialState : AuthState :=
  { user := none
    isAuthenticated := false
    isLoading := true
    error := none }

/-- authReducer of AuthContext.tsx lines 26-66; the TypeScript default branch
returns the state unchanged and is unreachable for the five actions, which
the closed inductive AuthAction covers. -/
def authReducer (state : AuthState) (action : AuthAction) : AuthState :=
  match action with
  | .auth_start =>
      { state with isLoading := true, error := none }
  | .auth_success payload =>
      { state with
          user := some payload
          isAuthenticated := true
          isLoading := false
          error := none }
  | .auth_failure payload =>
      { state with
          user := none
          isAuthenticated := false
          isLoading := false
          error := some payload }
  | .auth_logout =>
      { state with
          user := none
          isAuthenticated := false
          isLoading := false
          error := none }
  | .clear_error =>
      { state with error := none }

/-- Concrete User value used to instantiate reducer statements. -/
def sampleUser : User :=
  { uid := "u1"
    email := "u1@example.com"
    display_name := "User One"
    photo_url := none
    phone_number := none
    company_name := none
    job_title := none
    industry := none
    location := none
    bio := none
    created_at := "2024-01-01"
    updated_at := "2024-01-01"
    is_verified := true
    is_active := true }

/-- Modelled from the spec: the backend Group Aggregate (spec sections 4.3 and
5) is not under src/ (only the frontend Group interface is); this is the
membership roster state of one group, with memberships kept as the list of
member user ids. current_members of the frontend record corresponds to the
roster length. -/
structure GroupAggregate where
  max_members : Nat
  members : List String
deriving DecidableEq

/-- Modelled from the spec: create(owner, attrs) makes a new Group together
with the owner Membership, atomically (spec section 4.3). -/
def createGroupAggregate (owner : String) (maxMembers : Nat) : GroupAggregate :=
  { max_members := maxMembers, members := [owner] }

/-- Modelled from the spec: add_member enforces the capacity and uniqueness
invariants atomically (spec section 4.3); it fails (none) on an existing
Membership or when the roster is full. -/
def addMember (g : GroupAggregate) (u : String) : Option GroupAggregate :=
  if u ∈ g.members then none
  else if g.members.length < g.max_members then
    some { g with members := g.members ++ [u] }
  else none

/-- Modelled from the spec: remove_member destroys the Membership of the given
user (spec sections 3 and 4.3). -/
def removeMember (g : GroupAggregate) (u : String) : GroupAggregate :=
  { g with members := g.members.filter (fun m => m ≠ u) }

/-- Modelled from the spec: the group states reachable through the Group
Aggregate operations, starting from creation; the capacity attribute is
validated to the range 2..1000 on creation (part_000 lines 137-139 and spec
section 7, ValidationError). -/
inductive ReachableGroup : GroupAggregate → Prop where
  | create (owner : String) (maxMembers : Nat)
      (hlow : 2 ≤ maxMembers) (hhigh : maxMembers ≤ 1000) :
      ReachableGroup (createGroupAggregate owner maxMembers)
  | add (g g' : GroupAggregate) (u : String)
      (hg : ReachableGroup g) (hstep : addMember g u = some g') :
      ReachableGroup g'
  | remove (g : GroupAggregate) (u : String) (hg : ReachableGroup g) :
      ReachableGroup (removeMember g u)

/-! Theorems settling the claims. -/

/-- C1: the ApiService response interceptor performs the logout side effect
(removing auth_token and user from localStorage and redirecting to /login)
if and only if the response status is 401; a success response changes
nothing, and a 403 authorization failure triggers no redirect, so
authentication failure is handled distinguishably from authorization
failure. -/
theorem c1_response_interceptor_logout_iff_401
    (status : Option Nat) (store : LocalStorage) :
    (responseErrorInterceptor status store =
        ({ store with auth_token := none, user := none }, some "/login")
      ↔ status = some 401)
    ∧ responseSuccessInterceptor store = (store, none)
    ∧ (responseErrorInterceptor (some 403) store).2 = none := by
  refine ⟨?_, rfl, by simp [responseErrorInterceptor]⟩
  unfold responseErrorInterceptor
  split
  · next h => simp [h]
  · next h => simp [Prod.ext_iff, h]

/-- C2 counterexample: with auth_token stored as the empty string, the claim
as stated predicts an Authorization header equal to Bearer followed by the
stored token, but the interceptor adds no header, because the JavaScript
truthiness test if (token) is false on the empty string. -/
theorem c2_counterexample_empty_token :
    (requestInterceptor
        { auth_token := some "", user := none, refresh_token := none }
        { authorization := none }).authorization
      ≠ some ("Bearer " ++ "") := by
  decide

/-- C2 (amended): if localStorage holds a non-empty auth_token t, the request
interceptor sets the Authorization header to Bearer followed by t; if
auth_token is absent, or is present but empty, the config is unchanged and
no Authorization header is added. -/
theorem c2_request_interceptor_bearer
    (store : LocalStorage) (cfg : RequestConfig) :
    (∀ t : String, store.auth_token = some t → t ≠ "" →
      requestInterceptor store cfg =
        { cfg with authorization := some ("Bearer " ++ t) })
    ∧ (store.auth_token = none → requestInterceptor store cfg = cfg)
    ∧ (store.auth_token = some "" → requestInterceptor store cfg = cfg) := by
  refine ⟨?_, ?_, ?_⟩
  · intro t ht hne
    simp [requestInterceptor, ht, hne]
  · intro h
    simp [requestInterceptor, h]
  · intro h
    simp [requestInterceptor, h]

/-- C2 witness: a concrete non-empty token yields the bearer header. -/
theorem c2_request_interceptor_bearer_witness :
    requestInterceptor
        { auth_token := some "tok", user := none, refresh_token := none }
        { authorization := none }
      = { authorization := some ("Bearer " ++ "tok") } :=
  (c2_request_interceptor_bearer
      { auth_token := some "tok", user := none, refresh_token := none }
      { authorization := none }).1 "tok" rfl (by decide)

/-- C3 counterexample: the status value pending declared in the Invitation
interface is not among the four values the claim lists. -/
theorem c3_counterexample_pending_status :
    invitationStatusString InvitationStatus.pending ∉
      (["active", "deactivated", "expired", "exhausted"] : List String) := by
  decide

/-- C3 (amended): every Invitation status takes exactly one of the four
values pending, accepted, declined, expired declared in types/index.ts. -/
theorem c3_invitation_status_values (s : InvitationStatus) :
    invitationStatusString s ∈
        (["pending", "accepted", "declined", "expired"] : List String)
    ∧ (s = InvitationStatus.pending ∨ s = InvitationStatus.accepted
        ∨ s = InvitationStatus.declined ∨ s = InvitationStatus.expired) := by
  cases s <;> decide

/-- C4 counterexample: the Invitation interface declares no mode field at
all, contradicting the claim that every Invitation record carries one. -/
theorem c4_counterexample_no_mode_field :
    "mode" ∉ invitationFieldNames := by
  decide

/-- C4 (amended): the Invitation record has no mode, no usage counter, no
usage limit and no token field; it carries a mandatory invited_email, and
CreateInvitationRequest requires a recipient email, so no link mode without
a recipient email is admitted. -/
theorem c4_invitation_fields :
    "mode" ∉ invitationFieldNames
    ∧ "invited_email" ∈ invitationFieldNames
    ∧ "usage_count" ∉ invitationFieldNames
    ∧ "usage_limit" ∉ invitationFieldNames
    ∧ "token" ∉ invitationFieldNames
    ∧ "mode" ∉ createInvitationRequestFieldNames
    ∧ "email" ∈ createInvitationRequestRequiredFields := by
  decide

/-- C5 counterexample: the client request accepting the invitation with id t
is a POST to /invitations/t/accept, not to the /invitations/t/redeem path
the claim states. -/
theorem c5_counterexample_accept_path :
    acceptInvitationRequest "t"
      ≠ (HttpMethod.post, "/invitations/" ++ "t" ++ "/redeem") := by
  decide

/-- C5 (amended): the client's invitation operations are POST
/invitations/{id}/accept, POST /invitations/{id}/decline, DELETE
/invitations/{id}, and POST /invitations for creation; no redeem or validate
path is issued. -/
theorem c5_invitation_endpoints (invitationId : String) :
    acceptInvitationRequest invitationId
        = (HttpMethod.post, "/invitations/" ++ invitationId ++ "/accept")
    ∧ declineInvitationRequest invitationId
        = (HttpMethod.post, "/invitations/" ++ invitationId ++ "/decline")
    ∧ cancelInvitationRequest invitationId
        = (HttpMethod.delete, "/invitations/" ++ invitationId)
    ∧ createInvitationCall = (HttpMethod.post, "/invitations") :=
  ⟨rfl, rfl, rfl, rfl⟩

/-- C6: every reachable Group Aggregate state keeps the number of
memberships at most max_members. -/
theorem c6_reachable_group_capacity (g : GroupAggregate)
    (h : ReachableGroup g) :
    g.members.length ≤ g.max_members := by
  induction h with
  | create owner maxMembers hlow hhigh =>
      simp only [createGroupAggregate, List.length_singleton]
      omega
  | add g g' u hg hstep ih =>
      unfold addMember at hstep
      split at hstep
      · exact Option.noConfusion hstep
      · split at hstep
        · next hlt =>
            cases hstep
            simp only [List.length_append, List.length_singleton]
            omega
        · exact Option.noConfusion hstep
  | remove g u hg ih =>
      exact le_trans (List.length_filter_le _ _) ih

/-- C6 witness: a freshly created group with capacity 2 satisfies the
invariant. -/
theorem c6_reachable_group_capacity_witness :
    (createGroupAggregate "owner" 2).members.length
      ≤ (createGroupAggregate "owner" 2).max_members :=
  c6_reachable_group_capacity (createGroupAggregate "owner" 2)
    (ReachableGroup.create "owner" 2 (by decide) (by decide))

/-- C7: the Group privacy field takes exactly one of the three values
public, private, invite_only, and the group-creation form offers exactly
those three choices. -/
theorem c7_privacy_values (p : Privacy) :
    privacyString p ∈ privacyMenuValues
    ∧ privacyMenuValues =
        [privacyString Privacy.public, privacyString Privacy.priv,
         privacyString Privacy.invite_only]
    ∧ (p = Privacy.public ∨ p = Privacy.priv ∨ p = Privacy.invite_only)
    ∧ privacyMenuValues.Nodup := by
  cases p <;> decide

/-- C8: the authReducer preserves the invariant that isAuthenticated implies
a non-null user, for every state satisfying it and every action; moreover
AUTH_SUCCESS always yields isLoading false and a null error. -/
theorem c8_auth_reducer_invariant (s : AuthState) (a : AuthAction) (u : User)
    (hinv : s.isAuthenticated = true → s.user ≠ none) :
    ((authReducer s a).isAuthenticated = true → (authReducer s a).user ≠ none)
    ∧ (authReducer s (AuthAction.auth_success u)).isLoading = false
    ∧ (authReducer s (AuthAction.auth_success u)).error = none := by
  refine ⟨?_, rfl, rfl⟩
  cases a with
  | auth_start => exact hinv
  | auth_success payload =>
      intro _
      simp [authReducer]
  | auth_failure payload =>
      intro h
      simp [authReducer] at h
  | auth_logout =>
      intro h
      simp [authReducer] at h
  | clear_error => exact hinv

/-- C8 witness: the invariant holds of the initial state, is preserved by a
logout action, and a concrete successful authentication clears loading and
error. -/
theorem c8_auth_reducer_invariant_witness :
    ((authReducer initialState AuthAction.auth_logout).isAuthenticated = true →
        (authReducer initialState AuthAction.auth_logout).user ≠ none)
    ∧ (authReducer initialState
        (AuthAction.auth_success sampleUser)).isLoading = false
    ∧ (authReducer initialState
        (AuthAction.auth_success sampleUser)).error = none :=
  c8_auth_reducer_invariant initialState AuthAction.auth_logout sampleUser
    (by intro h; simp [initialState] at h)

/-- C9: validateForm returns true exactly when the trimmed name is non-empty
and the name is at least 3 characters, the trimmed description is non-empty
and the description is at least 10 characters, category and industry are
non-empty, and max_members lies between 2 and 1000 inclusive; when it
returns false, handleSubmit performs no API call. -/
theorem c9_validate_form (f : CreateGroupRequest) :
    (validateForm f = true ↔
      (f.name.trim ≠ "" ∧ 3 ≤ f.name.length
       ∧ f.description.trim ≠ "" ∧ 10 ≤ f.description.length
       ∧ f.category ≠ "" ∧ f.industry ≠ ""
       ∧ 2 ≤ f.max_members ∧ f.max_members ≤ 1000))
    ∧ (validateForm f = false → handleSubmit f = none) := by
  constructor
  · unfold validateForm validateFormErrors
    split_ifs <;> simp_all
    all_goals omega
  · intro hfalse
    simp [handleSubmit, hfalse]

/-- Helper: trimming the empty string yields the empty string; proved by
unfolding the well-founded auxiliary functions of String.trim one step. -/
theorem trim_empty : ("" : String).trim = "" := by
  simp only [String.trim, Substring.trim, String.toSubstring]
  rw [Substring.takeWhileAux]
  simp only [show ¬({ byteIdx := 0 } : String.Pos) < "".endPos by decide,
    dite_false]
  rw [Substring.takeRightWhileAux]
  simp only [show ¬({ byteIdx := 0 } : String.Pos) < "".endPos by decide,
    dite_false]
  decide

/-- C9 witness: the initial form data (empty name) fails validation, and its
submission issues no API call. -/
theorem c9_validate_form_witness : handleSubmit initialFormData = none :=
  (c9_validate_form initialFormData).2
    (by simp [validateForm, validateFormErrors, initialFormData, trim_empty])

/-- Helper: addTag keeps the tag list duplicate-free. -/
theorem addTag_nodup {tags : List String} (h : tags.Nodup) (raw : String) :
    (addTag tags raw).Nodup := by
  unfold addTag
  split
  · next hc =>
      simp [List.nodup_append, h, hc.2]
  · exact h

/-- Helper: removeTag keeps the tag list duplicate-free. -/
theorem removeTag_nodup {tags : List String} (h : tags.Nodup) (tag : String) :
    (removeTag tags tag).Nodup :=
  h.filter _

/-- Helper: any sequence of tag interactions keeps the list duplicate-free. -/
theorem applyTagOps_nodup (ops : List TagOp) (tags : List String)
    (h : tags.Nodup) : (applyTagOps tags ops).Nodup := by
  induction ops generalizing tags with
  | nil => exact h
  | cons op ops ih =>
      cases op with
      | add raw => exact ih _ (addTag_nodup h raw)
      | remove tag => exact ih _ (removeTag_nodup h tag)

/-- C10: from any duplicate-free tag list, every sequence of addTag and
removeTag interactions yields a duplicate-free list; addTag appends the
trimmed tag only when it is non-empty and not already present (otherwise
the list is unchanged), and removeTag removes every occurrence of the
given tag. -/
theorem c10_tag_list_nodup (tags : List String) (ops : List TagOp)
    (h : tags.Nodup) :
    (applyTagOps tags ops).Nodup
    ∧ (∀ (l : List String) (t : String), t ∉ removeTag l t)
    ∧ (∀ (l : List String) (raw : String),
        raw.trim = "" ∨ raw.trim ∈ l → addTag l raw = l)
    ∧ (∀ (l : List String) (raw : String),
        raw.trim ≠ "" → raw.trim ∉ l → addTag l raw = l ++ [raw.trim]) := by
  refine ⟨applyTagOps_nodup ops tags h, ?_, ?_, ?_⟩
  · intro l t
    simp [removeTag]
  · intro l raw hor
    unfold addTag
    split
    · next hc =>
        rcases hor with h1 | h2
        · exact absurd h1 hc.1
        · exact absurd h2 hc.2
    · rfl
  · intro l raw h1 h2
    unfold addTag
    rw [if_pos ⟨h1, h2⟩]

/-- C10 witness: a concrete interaction sequence on the empty tag list
(adding the same tag twice, then removing another) ends duplicate-free. -/
theorem c10_tag_list_nodup_witness :
    (applyTagOps [] [TagOp.add "a", TagOp.add "a", TagOp.remove "b"]).Nodup
    ∧ (∀ (l : List String) (t : String), t ∉ removeTag l t)
    ∧ (∀ (l : List String) (raw : String),
        raw.trim = "" ∨ raw.trim ∈ l → addTag l raw = l)
    ∧ (∀ (l : List String) (raw : String),
        raw.trim ≠ "" → raw.trim ∉ l → addTag l raw = l ++ [raw.trim]) :=
  c10_tag_list_nodup [] [TagOp.add "a", TagOp.add "a", TagOp.remove "b"]
    List.nodup_nil

end Procur
